import Mathlib

/-!
Shallow embedding of the CC3200 dual-image bootloader
(src/bootloader/main.c, src/bootloader/boot/boot.c, src/bootloader/boot/boot.h).

The SimpleLink serial-flash services (sl_FsOpen / sl_FsRead / sl_FsWrite /
sl_FsDel / sl_FsGetInfo) and the hardware primitives (PRCMSOCReset, BOOTRun)
are external collaborators.  Their outcomes are supplied by explicit
environment records, one field per call site, so that every path of the C
code is a deterministic function of (environment, storage state).
The boot.cfg file is modelled as `Option (List Nat)`: `none` when the file
does not exist, `some bytes` for its contents.  PRCMSOCReset and BOOTRun do
not return, so they are terminal events of the boot trace.
-/

namespace Bootloader

/-- BOOT_OK from bootstatus_t in boot.h (first enumerator, value 0). -/
def BOOT_OK : Nat := 0

/-- BOOT_CHECK from bootstatus_t in boot.h (value 1). -/
def BOOT_CHECK : Nat := 1

/-- BOOT_CHECKING from bootstatus_t in boot.h (value 2). -/
def BOOT_CHECKING : Nat := 2

/-- BOOT_ERR from bootstatus_t in boot.h (value 3). -/
def BOOT_ERR : Nat := 3

/-- IMG_FACTORY from imgtype_t in boot.h (value 0). -/
def IMG_FACTORY : Nat := 0

/-- IMG_CUSTOM from imgtype_t in boot.h (value 1). -/
def IMG_CUSTOM : Nat := 1

/-- BASE_ADDR from boot.h: SRAM address where images are loaded. -/
def BASE_ADDR : Nat := 0x20004000

/-- Modelled from the spec: the capacity of the fixed execution-memory
destination region.  The source gives only its base (BASE_ADDR in boot.h);
the region is the rest of the CC3200's 256 KiB SRAM, which spans 0x20000000
to 0x20040000, so the region from BASE_ADDR to the end of SRAM holds
0x3C000 = 245760 bytes. -/
def destCapacity : Nat := 0x20040000 - BASE_ADDR

/-- bootinfo_t from boot.h: a `bootstatus_t status` field followed by an
`imgtype_t bootimg` field, each stored as a 4-byte machine integer. -/
structure bootinfo_t where
  status : Nat
  bootimg : Nat
deriving DecidableEq, Repr

/-- Little-endian 4-byte encoding of a 32-bit machine integer, as laid out in
memory for one enum field of bootinfo_t. -/
def toBytes4 (n : Nat) : List Nat :=
  [n % 2^8, n / 2^8 % 2^8, n / 2^16 % 2^8, n / 2^24 % 2^8]

/-- Decoding of a little-endian 4-byte field; absent bytes read as 0. -/
def fromBytes4 (bs : List Nat) : Nat :=
  bs.getD 0 0 + 2^8 * bs.getD 1 0 + 2^16 * bs.getD 2 0 + 2^24 * bs.getD 3 0

/-- The byte image of a bootinfo_t structure (sizeof(bootinfo_t) = 8 bytes:
status first, then bootimg, matching the struct layout in boot.h). -/
def serialize (b : bootinfo_t) : List Nat :=
  toBytes4 b.status ++ toBytes4 b.bootimg

/-- Reading a bootinfo_t structure back from a byte buffer. -/
def deserialize (bs : List Nat) : bootinfo_t :=
  ⟨fromBytes4 (bs.take 4), fromBytes4 ((bs.drop 4).take 4)⟩

/-- BOOTExistCfg from boot.c: sl_FsGetInfo on "boot.cfg" succeeds exactly
when the file exists. -/
def BOOTExistCfg (fs : Option (List Nat)) : Bool :=
  fs.isSome

/-- Outcomes of the SimpleLink calls made by one BOOTWriteCfg invocation:
whether sl_FsOpen (write mode) or the create in BOOTCreateCfg succeeds, and
the value returned by sl_FsWrite (bytes written, or a negative error). -/
structure WriteEnv where
  openOk : Bool
  count : Int
deriving DecidableEq, Repr

/-- Outcomes of the SimpleLink calls made by one BOOTReadCfg invocation:
the sl_FsOpen return value, whether sl_FsRead fails with a negative error,
and the prior contents of the caller's stack buffer (the bytes that remain
in the bootinfo_t output structure past the end of the file data). -/
structure ReadEnv where
  openErr : Int
  readErr : Bool
  junk : List Nat
deriving DecidableEq, Repr

/-- Outcomes of the SimpleLink calls BOOTLoadImg makes for one image file:
the sl_FsOpen return value, the FileLen reported by sl_FsGetInfo, and the
sl_FsRead return value (bytes read, or a negative error). -/
structure FileEnv where
  openErr : Int
  fileLen : Nat
  readRet : Int
deriving DecidableEq, Repr

/-- The two image files BOOTLoadImg can open: /sys/factory.bin and
/sys/custom.bin. -/
structure LoadEnv where
  factory : FileEnv
  custom : FileEnv
deriving DecidableEq, Repr

/-- BOOTWriteCfg from boot.c.  If boot.cfg exists it is opened for writing,
otherwise BOOTCreateCfg allocates it (empty, capacity 512); then sl_FsWrite
stores sizeof(bootinfo_t) = 8 bytes at offset 0 and its return value RetVal
is the byte count actually written.  The function returns -1 when the open or
create fails or RetVal is negative, and 0 otherwise.  Result: (return value,
new boot.cfg state); a successful write of k bytes replaces the first k bytes
of the file with the first k bytes of the serialized record. -/
def BOOTWriteCfg (env : WriteEnv) (fs : Option (List Nat)) (b : bootinfo_t) :
    Int × Option (List Nat) :=
  match fs with
  | some content =>
    if env.openOk then
      if env.count < 0 then (-1, some content)
      else (0, some ((serialize b).take env.count.toNat ++
                     content.drop env.count.toNat))
    else (-1, some content)
  | none =>
    if env.openOk then
      if env.count < 0 then (-1, some [])
      else (0, some ((serialize b).take env.count.toNat))
    else (-1, none)

/-- BOOTReadCfg from boot.c.  Returns -1 if BOOTExistCfg fails, the sl_FsOpen
error if the open fails, a negative error if sl_FsRead fails, and otherwise 0
with the bootinfo_t structure read from the first 8 bytes of the file
(completed from the uninitialized buffer when the file is shorter).
Result: (return value, record when the return value is 0). -/
def BOOTReadCfg (env : ReadEnv) (fs : Option (List Nat)) :
    Int × Option bootinfo_t :=
  match fs with
  | none => (-1, none)
  | some content =>
    if env.openErr ≠ 0 then (env.openErr, none)
    else if env.readErr then (-1, none)
    else (0, some (deserialize ((content ++ env.junk).take 8)))

/-- What one BOOTLoadImg call did: its int32_t return value, the image file
whose sl_FsOpen was issued (none when the switch fell to the default arm),
and how many bytes sl_FsRead copied into the region at BASE_ADDR. -/
structure LoadResult where
  ret : Int
  opened : Option Nat
  bytesCopied : Nat
deriving DecidableEq, Repr

/-- BOOTLoadImg from boot.c.  IMG_FACTORY opens /sys/factory.bin and
IMG_CUSTOM opens /sys/custom.bin, returning the sl_FsOpen error when the open
fails; any other img value returns -1 from the default switch arm before any
file operation.  After a successful open, sl_FsGetInfo reports FileLen and
sl_FsRead copies the file into BASE_ADDR, requesting FileLen bytes; the code
returns the read error when RetVal is negative and 0 otherwise, with the
returned non-negative count being the number of bytes copied. -/
def BOOTLoadImg (env : LoadEnv) (img : Nat) : LoadResult :=
  if img = IMG_FACTORY then
    if env.factory.openErr ≠ 0 then ⟨env.factory.openErr, some IMG_FACTORY, 0⟩
    else if env.factory.readRet < 0 then
      ⟨env.factory.readRet, some IMG_FACTORY, 0⟩
    else ⟨0, some IMG_FACTORY, env.factory.readRet.toNat⟩
  else if img = IMG_CUSTOM then
    if env.custom.openErr ≠ 0 then ⟨env.custom.openErr, some IMG_CUSTOM, 0⟩
    else if env.custom.readRet < 0 then
      ⟨env.custom.readRet, some IMG_CUSTOM, 0⟩
    else ⟨0, some IMG_CUSTOM, env.custom.readRet.toNat⟩
  else ⟨-1, none, 0⟩

/-- BOOTDeleteCfg from boot.c: sl_FsDel on boot.cfg; result is the sl error
code and the new state of the file. -/
def BOOTDeleteCfg (delOk : Bool) (fs : Option (List Nat)) :
    Int × Option (List Nat) :=
  if delOk then (0, none) else (-1, fs)

/-- The observable steps of one boot cycle of main (main.c), in program
order.  evReset (PRCMSOCReset) and evRun (BOOTRun at BASE_ADDR) never
return, so each can only end a trace. -/
inductive Event where
  | evWrite (b : bootinfo_t) (ok : Bool)
  | evRead (ok : Bool)
  | evLoad (img : Nat) (ret : Int)
  | evDelete
  | evReset
  | evRun
deriving DecidableEq, Repr

/-- Outcomes of every external call one run of main can make: the sl_Start
result, the WriteEnv of the default-record write, the ReadEnv of the
configuration read, the WriteEnv of the transition write in the CHECK and
CHECKING/ERR arms, the image-file environment, and whether sl_FsDel
succeeds. -/
structure BootEnv where
  slStartErr : Bool
  wDefault : WriteEnv
  rCfg : ReadEnv
  wTrans : WriteEnv
  load : LoadEnv
  delOk : Bool
deriving DecidableEq, Repr

/-- The switch (bootinfo.status) statement of main (main.c lines 123-163),
given the storage state and the record just read.  BOOT_OK loads the
recorded image and falls through to BOOTRun without checking the load
result.  BOOT_CHECK rewrites status to BOOT_CHECKING (bootimg untouched),
resets if the write fails, then loads IMG_CUSTOM and resets if the load
fails.  BOOT_CHECKING and BOOT_ERR rewrite the record to
{BOOT_OK, IMG_FACTORY}, reset if the write fails, then load IMG_FACTORY and
reset if the load fails.  Any other status deletes boot.cfg and resets. -/
def bootSwitch (env : BootEnv) (fs : Option (List Nat)) (b : bootinfo_t) :
    List Event × Option (List Nat) :=
  if b.status = BOOT_OK then
    ([Event.evLoad b.bootimg (BOOTLoadImg env.load b.bootimg).ret,
      Event.evRun], fs)
  else if b.status = BOOT_CHECK then
    let b2 : bootinfo_t := ⟨BOOT_CHECKING, b.bootimg⟩
    let wr := BOOTWriteCfg env.wTrans fs b2
    if wr.1 ≠ 0 then ([Event.evWrite b2 false, Event.evReset], wr.2)
    else
      let lr := BOOTLoadImg env.load IMG_CUSTOM
      if lr.ret ≠ 0 then
        ([Event.evWrite b2 true, Event.evLoad IMG_CUSTOM lr.ret,
          Event.evReset], wr.2)
      else
        ([Event.evWrite b2 true, Event.evLoad IMG_CUSTOM lr.ret,
          Event.evRun], wr.2)
  else if b.status = BOOT_CHECKING ∨ b.status = BOOT_ERR then
    let b2 : bootinfo_t := ⟨BOOT_OK, IMG_FACTORY⟩
    let wr := BOOTWriteCfg env.wTrans fs b2
    if wr.1 ≠ 0 then ([Event.evWrite b2 false, Event.evReset], wr.2)
    else
      let lr := BOOTLoadImg env.load IMG_FACTORY
      if lr.ret ≠ 0 then
        ([Event.evWrite b2 true, Event.evLoad IMG_FACTORY lr.ret,
          Event.evReset], wr.2)
      else
        ([Event.evWrite b2 true, Event.evLoad IMG_FACTORY lr.ret,
          Event.evRun], wr.2)
  else
    let dl := BOOTDeleteCfg env.delOk fs
    ([Event.evDelete, Event.evReset], dl.2)

/-- The part of main after the default-record creation: BOOTReadCfg, reset
on failure, otherwise the status switch (main.c lines 110-163). -/
def bootAfterCreate (env : BootEnv) (fs : Option (List Nat))
    (pre : List Event) : List Event × Option (List Nat) :=
  match (BOOTReadCfg env.rCfg fs).2 with
  | none => (pre ++ [Event.evRead false, Event.evReset], fs)
  | some b =>
    let sw := bootSwitch env fs b
    (pre ++ Event.evRead true :: sw.1, sw.2)

/-- One run of main (main.c): reset if sl_Start fails; if boot.cfg does not
exist, write the default record {status BOOT_OK, bootimg IMG_FACTORY} and
reset if that write fails; then read the configuration and run the status
switch.  Result: (trace of observable events, final boot.cfg state). -/
def bootMain (env : BootEnv) (fs0 : Option (List Nat)) :
    List Event × Option (List Nat) :=
  if env.slStartErr then ([Event.evReset], fs0)
  else if BOOTExistCfg fs0 then bootAfterCreate env fs0 []
  else
    let d : bootinfo_t := ⟨BOOT_OK, IMG_FACTORY⟩
    let wr := BOOTWriteCfg env.wDefault fs0 d
    if wr.1 ≠ 0 then ([Event.evWrite d false, Event.evReset], wr.2)
    else bootAfterCreate env wr.2 [Event.evWrite d true]

end Bootloader

namespace Bootloader

/-- Little-endian 4-byte round trip for a 32-bit value. -/
theorem fromBytes4_toBytes4 (n : Nat) (h : n < 2^32) :
    fromBytes4 (toBytes4 n) = n := by
  simp [fromBytes4, toBytes4, List.getD]
  omega

/-- A 4-byte field encodes to 4 bytes. -/
theorem toBytes4_length (n : Nat) : (toBytes4 n).length = 4 := by
  simp [toBytes4]

/-- A bootinfo_t structure occupies sizeof(bootinfo_t) = 8 bytes. -/
theorem serialize_length (b : bootinfo_t) : (serialize b).length = 8 := by
  simp [serialize, toBytes4]

/-- Taking 8 bytes from a buffer whose first part has 8 bytes. -/
theorem take_eight (l1 l2 : List Nat) (h : l1.length = 8) :
    (l1 ++ l2).take 8 = l1 := by
  rw [← h, List.take_left]

/-- Reading back the byte image of a record recovers the record. -/
theorem deserialize_serialize (b : bootinfo_t) (hs : b.status < 2^32)
    (hi : b.bootimg < 2^32) : deserialize (serialize b) = b := by
  cases b with
  | mk s i =>
    simp only [deserialize, serialize]
    rw [← toBytes4_length s, List.take_left, List.drop_left]
    rw [toBytes4_length s, ← toBytes4_length i, List.take_length]
    simp only [fromBytes4_toBytes4 s hs, fromBytes4_toBytes4 i hi]

/-- Reading back the byte image of a record recovers the record, for any
trailing uninitialized buffer bytes. -/
theorem deserialize_serialize_junk (b : bootinfo_t) (junk : List Nat)
    (hs : b.status < 2^32) (hi : b.bootimg < 2^32) :
    deserialize ((serialize b ++ junk).take 8) = b := by
  rw [take_eight _ _ (serialize_length b), deserialize_serialize b hs hi]

/-- C8: for every valid {status, image} combination, BOOTWriteCfg followed by
BOOTReadCfg yields a bit-identical record, assuming the underlying SimpleLink
operations succeed (the open succeeds, sl_FsWrite writes the full 8 bytes,
and the read-side open and read succeed). -/
theorem c8_write_read_roundtrip (wenv : WriteEnv) (renv : ReadEnv)
    (fs : Option (List Nat)) (b : bootinfo_t)
    (hs : b.status < 4) (hi : b.bootimg < 2)
    (hop : wenv.openOk = true) (hcnt : wenv.count = 8)
    (hro : renv.openErr = 0) (hrr : renv.readErr = false) :
    (BOOTWriteCfg wenv fs b).1 = 0 ∧
    BOOTReadCfg renv (BOOTWriteCfg wenv fs b).2 = (0, some b) := by
  have hs32 : b.status < 2^32 := lt_trans hs (by norm_num)
  have hi32 : b.bootimg < 2^32 := lt_trans hi (by norm_num)
  have hb8 : (serialize b).take 8 = serialize b := by
    rw [← serialize_length b, List.take_length]
  cases fs with
  | none =>
    constructor
    · simp [BOOTWriteCfg, hop, hcnt]
    · simp [BOOTWriteCfg, BOOTReadCfg, hop, hcnt, hro, hrr, hb8,
        deserialize_serialize_junk b renv.junk hs32 hi32]
  | some content =>
    have key : (serialize b ++ (content.drop 8 ++ renv.junk)).take 8 =
        serialize b := take_eight _ _ (serialize_length b)
    constructor
    · simp [BOOTWriteCfg, hop, hcnt]
    · simp [BOOTWriteCfg, BOOTReadCfg, hop, hcnt, hro, hrr, hb8, key,
        deserialize_serialize b hs32 hi32]

/-- C8 witness: the round trip at the concrete record
{status BOOT_CHECK, bootimg IMG_CUSTOM} on an existing file. -/
theorem c8_write_read_roundtrip_witness :
    (BOOTWriteCfg ⟨true, 8⟩ (some [9, 9, 9, 9, 9, 9, 9, 9])
      ⟨BOOT_CHECK, IMG_CUSTOM⟩).1 = 0 ∧
    BOOTReadCfg ⟨0, false, []⟩ (BOOTWriteCfg ⟨true, 8⟩
      (some [9, 9, 9, 9, 9, 9, 9, 9]) ⟨BOOT_CHECK, IMG_CUSTOM⟩).2 =
      (0, some ⟨BOOT_CHECK, IMG_CUSTOM⟩) :=
  c8_write_read_roundtrip ⟨true, 8⟩ ⟨0, false, []⟩
    (some [9, 9, 9, 9, 9, 9, 9, 9]) ⟨BOOT_CHECK, IMG_CUSTOM⟩
    (by decide) (by decide) rfl rfl rfl rfl

/-- C10: BOOTWriteCfg returns 0 whenever the open or create succeeds and
sl_FsWrite returns a non-negative byte count, even when that count is smaller
than sizeof(bootinfo_t): a short write is reported to the caller as
success. -/
theorem c10_short_write_reports_success (wenv : WriteEnv)
    (fs : Option (List Nat)) (b : bootinfo_t)
    (hop : wenv.openOk = true) (hcnt : 0 ≤ wenv.count) :
    (BOOTWriteCfg wenv fs b).1 = 0 := by
  cases fs <;> simp [BOOTWriteCfg, hop, not_lt.mpr hcnt]

/-- C10 witness: a write of only 3 of the 8 record bytes still returns 0. -/
theorem c10_short_write_reports_success_witness :
    (0 : Int) ≤ 3 ∧ (3 : Int) < 8 ∧
    (BOOTWriteCfg ⟨true, 3⟩ none ⟨BOOT_OK, IMG_FACTORY⟩).1 = 0 :=
  ⟨by decide, by decide,
    c10_short_write_reports_success ⟨true, 3⟩ none ⟨BOOT_OK, IMG_FACTORY⟩
      rfl (by decide)⟩

/-- C9: for every image argument outside {IMG_FACTORY, IMG_CUSTOM},
BOOTLoadImg returns -1 from the default switch arm without opening any file
and without copying any bytes to the region at BASE_ADDR. -/
theorem c9_invalid_img_rejected (env : LoadEnv) (img : Nat)
    (hf : img ≠ IMG_FACTORY) (hc : img ≠ IMG_CUSTOM) :
    BOOTLoadImg env img = ⟨-1, none, 0⟩ := by
  simp [BOOTLoadImg, hf, hc]

/-- C9 witness: image argument 7 is rejected with no file activity. -/
theorem c9_invalid_img_rejected_witness :
    BOOTLoadImg ⟨⟨0, 4, 4⟩, ⟨0, 4, 4⟩⟩ 7 = ⟨-1, none, 0⟩ :=
  c9_invalid_img_rejected ⟨⟨0, 4, 4⟩, ⟨0, 4, 4⟩⟩ 7 (by decide) (by decide)

/-- C4 counterexample: with /sys/custom.bin present, FileLen = 262144 (a
value both the u32 FileLen and the int32_t sl_FsRead return can hold, as
262144 < 2^31, yet larger than the 245760-byte destination region) and the
read succeeding in full, BOOTLoadImg returns 0 instead of a LoadError and
copies 262144 bytes past the region: the claimed length check and overflow
protection do not exist in the code. -/
theorem c4_counterexample_overflow :
    (BOOTLoadImg ⟨⟨0, 4, 4⟩, ⟨0, 262144, 262144⟩⟩ IMG_CUSTOM).ret = 0 ∧
    (BOOTLoadImg ⟨⟨0, 4, 4⟩, ⟨0, 262144, 262144⟩⟩ IMG_CUSTOM).bytesCopied =
      262144 ∧
    destCapacity < 262144 ∧ 262144 < 2^31 := by
  decide

/-- C4 (amended): BOOTLoadImg fails only when the sl_FsOpen of the image path
fails (the path does not exist) or sl_FsRead returns a negative error; it
performs no short-read check and no bound check against the destination
region: whenever the read returns a non-negative count it reports success and
copies exactly that many bytes, however large. -/
theorem c4_amended_load_checks (env : LoadEnv) (img : Nat) (f : FileEnv)
    (hf : (if img = IMG_FACTORY then env.factory else env.custom) = f)
    (h : img = IMG_FACTORY ∨ img = IMG_CUSTOM) :
    (f.openErr ≠ 0 → (BOOTLoadImg env img).ret = f.openErr ∧
      (BOOTLoadImg env img).bytesCopied = 0) ∧
    (f.openErr = 0 → f.readRet < 0 → (BOOTLoadImg env img).ret = f.readRet ∧
      (BOOTLoadImg env img).bytesCopied = 0) ∧
    (f.openErr = 0 → 0 ≤ f.readRet → (BOOTLoadImg env img).ret = 0 ∧
      (BOOTLoadImg env img).bytesCopied = f.readRet.toNat) := by
  rcases h with h | h <;> subst h <;> subst hf <;>
    refine ⟨fun h1 => ?_, fun h1 h2 => ?_, fun h1 h2 => ?_⟩ <;>
    simp_all [BOOTLoadImg, IMG_FACTORY, IMG_CUSTOM, not_lt.mpr]

/-- C4 (amended) witness: a missing factory image fails with the open error
and copies nothing; a short read (3 of 10 bytes) on the custom image is
reported as success with 3 bytes copied. -/
theorem c4_amended_load_checks_witness :
    ((BOOTLoadImg ⟨⟨-2, 10, 3⟩, ⟨0, 10, 3⟩⟩ IMG_FACTORY).ret = -2 ∧
      (BOOTLoadImg ⟨⟨-2, 10, 3⟩, ⟨0, 10, 3⟩⟩ IMG_FACTORY).bytesCopied = 0) ∧
    ((BOOTLoadImg ⟨⟨-2, 10, 3⟩, ⟨0, 10, 3⟩⟩ IMG_CUSTOM).ret = 0 ∧
      (BOOTLoadImg ⟨⟨-2, 10, 3⟩, ⟨0, 10, 3⟩⟩ IMG_CUSTOM).bytesCopied =
        (3 : Int).toNat) :=
  ⟨(c4_amended_load_checks ⟨⟨-2, 10, 3⟩, ⟨0, 10, 3⟩⟩ IMG_FACTORY
      ⟨-2, 10, 3⟩ rfl (Or.inl rfl)).1 (by decide),
   (c4_amended_load_checks ⟨⟨-2, 10, 3⟩, ⟨0, 10, 3⟩⟩ IMG_CUSTOM
      ⟨0, 10, 3⟩ rfl (Or.inr rfl)).2.2 rfl (by decide)⟩

end Bootloader

namespace Bootloader

/-- C2: for every boot whose stored record reads back with status
BOOT_CHECKING or BOOT_ERR, main persists {BOOT_OK, IMG_FACTORY} (the write
returning 0) strictly before invoking the image load, then loads IMG_FACTORY;
both statuses yield the identical trace. -/
theorem c2_rollback_to_factory (env : BootEnv) (content : List Nat)
    (b : bootinfo_t)
    (hsl : env.slStartErr = false)
    (hrd : BOOTReadCfg env.rCfg (some content) = (0, some b))
    (hst : b.status = BOOT_CHECKING ∨ b.status = BOOT_ERR)
    (hop : env.wTrans.openOk = true) (hcnt : 0 ≤ env.wTrans.count) :
    (bootMain env (some content)).1 =
      [Event.evRead true, Event.evWrite ⟨BOOT_OK, IMG_FACTORY⟩ true,
       Event.evLoad IMG_FACTORY (BOOTLoadImg env.load IMG_FACTORY).ret] ++
      (if (BOOTLoadImg env.load IMG_FACTORY).ret ≠ 0 then [Event.evReset]
       else [Event.evRun]) := by
  have hnlt := not_lt.mpr hcnt
  rcases hst with h | h <;>
    simp [bootMain, bootAfterCreate, bootSwitch, BOOTExistCfg, hsl, hrd, h,
      BOOT_OK, BOOT_CHECK, BOOT_CHECKING, BOOT_ERR, IMG_FACTORY,
      BOOTWriteCfg, hop, hnlt] <;>
    split <;> simp_all

/-- C2 witness: a {BOOT_ERR, IMG_CUSTOM} record rolls back to factory. -/
theorem c2_rollback_to_factory_witness :
    (bootMain ⟨false, ⟨true, 8⟩, ⟨0, false, []⟩, ⟨true, 8⟩,
        ⟨⟨0, 8, 8⟩, ⟨0, 8, 8⟩⟩, true⟩
      (some [3, 0, 0, 0, 1, 0, 0, 0])).1 =
      [Event.evRead true, Event.evWrite ⟨BOOT_OK, IMG_FACTORY⟩ true,
       Event.evLoad IMG_FACTORY 0, Event.evRun] := by
  have h := c2_rollback_to_factory
    ⟨false, ⟨true, 8⟩, ⟨0, false, []⟩, ⟨true, 8⟩,
      ⟨⟨0, 8, 8⟩, ⟨0, 8, 8⟩⟩, true⟩
    [3, 0, 0, 0, 1, 0, 0, 0] ⟨BOOT_ERR, IMG_CUSTOM⟩
    rfl (by decide) (Or.inr rfl) rfl (by decide)
  simpa using h

/-- C1 counterexample: with the stored record {BOOT_CHECK, IMG_FACTORY} and
every storage operation succeeding, the record main persists is
{BOOT_CHECKING, IMG_FACTORY} — the code never sets bootimg to IMG_CUSTOM in
the BOOT_CHECK arm — so no record {BOOT_CHECKING, IMG_CUSTOM} is ever
written, refuting the claim for this boot. -/
theorem c1_counterexample_image_not_custom :
    (bootMain ⟨false, ⟨true, 8⟩, ⟨0, false, []⟩, ⟨true, 8⟩,
        ⟨⟨0, 8, 8⟩, ⟨0, 8, 8⟩⟩, true⟩
      (some [1, 0, 0, 0, 0, 0, 0, 0])).1 =
      [Event.evRead true,
       Event.evWrite ⟨BOOT_CHECKING, IMG_FACTORY⟩ true,
       Event.evLoad IMG_CUSTOM 0, Event.evRun] ∧
    Event.evWrite ⟨BOOT_CHECKING, IMG_CUSTOM⟩ true ∉
      (bootMain ⟨false, ⟨true, 8⟩, ⟨0, false, []⟩, ⟨true, 8⟩,
        ⟨⟨0, 8, 8⟩, ⟨0, 8, 8⟩⟩, true⟩
      (some [1, 0, 0, 0, 0, 0, 0, 0])).1 ∧
    Event.evWrite ⟨BOOT_CHECKING, IMG_CUSTOM⟩ false ∉
      (bootMain ⟨false, ⟨true, 8⟩, ⟨0, false, []⟩, ⟨true, 8⟩,
        ⟨⟨0, 8, 8⟩, ⟨0, 8, 8⟩⟩, true⟩
      (some [1, 0, 0, 0, 0, 0, 0, 0])).1 := by
  decide

/-- C1 (amended): for every boot whose stored record reads back with status
BOOT_CHECK, main persists {BOOT_CHECKING, image unchanged from the stored
record} — which equals {BOOT_CHECKING, IMG_CUSTOM} exactly when the stored
image was IMG_CUSTOM — and that write returns 0 strictly before the load of
IMG_CUSTOM is invoked; the image loaded is IMG_CUSTOM. -/
theorem c1_amended_check_transition (env : BootEnv) (content : List Nat)
    (b : bootinfo_t)
    (hsl : env.slStartErr = false)
    (hrd : BOOTReadCfg env.rCfg (some content) = (0, some b))
    (hst : b.status = BOOT_CHECK)
    (hop : env.wTrans.openOk = true) (hcnt : 0 ≤ env.wTrans.count) :
    (bootMain env (some content)).1 =
      [Event.evRead true, Event.evWrite ⟨BOOT_CHECKING, b.bootimg⟩ true,
       Event.evLoad IMG_CUSTOM (BOOTLoadImg env.load IMG_CUSTOM).ret] ++
      (if (BOOTLoadImg env.load IMG_CUSTOM).ret ≠ 0 then [Event.evReset]
       else [Event.evRun]) := by
  have hnlt := not_lt.mpr hcnt
  simp [bootMain, bootAfterCreate, bootSwitch, BOOTExistCfg, hsl, hrd, hst,
    BOOT_OK, BOOT_CHECK, BOOT_CHECKING, IMG_CUSTOM,
    BOOTWriteCfg, hop, hnlt]
  split <;> simp_all

/-- C1 (amended) witness: the spec's Scenario 2 record {BOOT_CHECK,
IMG_CUSTOM} persists {BOOT_CHECKING, IMG_CUSTOM} before loading custom. -/
theorem c1_amended_check_transition_witness :
    (bootMain ⟨false, ⟨true, 8⟩, ⟨0, false, []⟩, ⟨true, 8⟩,
        ⟨⟨0, 8, 8⟩, ⟨0, 8, 8⟩⟩, true⟩
      (some [1, 0, 0, 0, 1, 0, 0, 0])).1 =
      [Event.evRead true, Event.evWrite ⟨BOOT_CHECKING, IMG_CUSTOM⟩ true,
       Event.evLoad IMG_CUSTOM 0, Event.evRun] := by
  have h := c1_amended_check_transition
    ⟨false, ⟨true, 8⟩, ⟨0, false, []⟩, ⟨true, 8⟩,
      ⟨⟨0, 8, 8⟩, ⟨0, 8, 8⟩⟩, true⟩
    [1, 0, 0, 0, 1, 0, 0, 0] ⟨BOOT_CHECK, IMG_CUSTOM⟩
    rfl (by decide) rfl rfl (by decide)
  simpa using h

/-- C7: for every boot whose stored record reads back with status BOOT_OK,
main performs no write at all — the trace is read, load of the recorded
image, run — and the final boot.cfg state is bit-identical to the initial
one, so repeated stable boots cause no state drift. -/
theorem c7_ok_no_persistence (env : BootEnv) (content : List Nat)
    (b : bootinfo_t)
    (hsl : env.slStartErr = false)
    (hrd : BOOTReadCfg env.rCfg (some content) = (0, some b))
    (hst : b.status = BOOT_OK) :
    bootMain env (some content) =
      ([Event.evRead true,
        Event.evLoad b.bootimg (BOOTLoadImg env.load b.bootimg).ret,
        Event.evRun], some content) ∧
    ∀ b2 ok, Event.evWrite b2 ok ∉ (bootMain env (some content)).1 := by
  have h1 : bootMain env (some content) =
      ([Event.evRead true,
        Event.evLoad b.bootimg (BOOTLoadImg env.load b.bootimg).ret,
        Event.evRun], some content) := by
    simp [bootMain, bootAfterCreate, bootSwitch, BOOTExistCfg, hsl, hrd, hst,
      BOOT_OK]
  refine ⟨h1, fun b2 ok => ?_⟩
  rw [h1]
  simp

/-- C7 witness: a stable {BOOT_OK, IMG_FACTORY} boot leaves storage
untouched. -/
theorem c7_ok_no_persistence_witness :
    bootMain ⟨false, ⟨true, 8⟩, ⟨0, false, []⟩, ⟨true, 8⟩,
        ⟨⟨0, 8, 8⟩, ⟨0, 8, 8⟩⟩, true⟩
      (some [0, 0, 0, 0, 0, 0, 0, 0]) =
      ([Event.evRead true, Event.evLoad IMG_FACTORY 0, Event.evRun],
       some [0, 0, 0, 0, 0, 0, 0, 0]) := by
  have h := (c7_ok_no_persistence
    ⟨false, ⟨true, 8⟩, ⟨0, false, []⟩, ⟨true, 8⟩,
      ⟨⟨0, 8, 8⟩, ⟨0, 8, 8⟩⟩, true⟩
    [0, 0, 0, 0, 0, 0, 0, 0] ⟨BOOT_OK, IMG_FACTORY⟩
    rfl (by decide) rfl).1
  simpa using h

/-- C5 counterexample: the stored record {status BOOT_OK, image 99} has an
image value outside the known enum range, yet main does not delete the
record and does not reset: the switch inspects only the status, so the boot
invokes BOOTLoadImg with image 99 (which fails, unchecked) and transfers
execution anyway. -/
theorem c5_counterexample_bad_image_not_healed :
    (bootMain ⟨false, ⟨true, 8⟩, ⟨0, false, []⟩, ⟨true, 8⟩,
        ⟨⟨0, 8, 8⟩, ⟨0, 8, 8⟩⟩, true⟩
      (some [0, 0, 0, 0, 99, 0, 0, 0])).1 =
      [Event.evRead true, Event.evLoad 99 (-1), Event.evRun] ∧
    Event.evDelete ∉
      (bootMain ⟨false, ⟨true, 8⟩, ⟨0, false, []⟩, ⟨true, 8⟩,
        ⟨⟨0, 8, 8⟩, ⟨0, 8, 8⟩⟩, true⟩
      (some [0, 0, 0, 0, 99, 0, 0, 0])).1 ∧
    Event.evReset ∉
      (bootMain ⟨false, ⟨true, 8⟩, ⟨0, false, []⟩, ⟨true, 8⟩,
        ⟨⟨0, 8, 8⟩, ⟨0, 8, 8⟩⟩, true⟩
      (some [0, 0, 0, 0, 99, 0, 0, 0])).1 := by
  decide

/-- C5 (amended): for every boot whose stored record reads back with a STATUS
value outside the known enum range, main deletes boot.cfg and hard resets,
with no image load and no execution transfer that cycle; an out-of-range
image value under a recognized status is not detected. -/
theorem c5_amended_unknown_status_self_heal (env : BootEnv)
    (content : List Nat) (b : bootinfo_t)
    (hsl : env.slStartErr = false)
    (hrd : BOOTReadCfg env.rCfg (some content) = (0, some b))
    (h0 : b.status ≠ BOOT_OK) (h1 : b.status ≠ BOOT_CHECK)
    (h2 : b.status ≠ BOOT_CHECKING) (h3 : b.status ≠ BOOT_ERR) :
    (bootMain env (some content)).1 =
      [Event.evRead true, Event.evDelete, Event.evReset] := by
  simp [bootMain, bootAfterCreate, bootSwitch, BOOTExistCfg, hsl, hrd,
    h0, h1, h2, h3]

/-- C5 (amended) witness: the spec's Scenario 5 record with status 99 is
deleted and the device reset with no load attempted. -/
theorem c5_amended_unknown_status_self_heal_witness :
    (bootMain ⟨false, ⟨true, 8⟩, ⟨0, false, []⟩, ⟨true, 8⟩,
        ⟨⟨0, 8, 8⟩, ⟨0, 8, 8⟩⟩, true⟩
      (some [99, 0, 0, 0, 1, 0, 0, 0])).1 =
      [Event.evRead true, Event.evDelete, Event.evReset] :=
  c5_amended_unknown_status_self_heal
    ⟨false, ⟨true, 8⟩, ⟨0, false, []⟩, ⟨true, 8⟩,
      ⟨⟨0, 8, 8⟩, ⟨0, 8, 8⟩⟩, true⟩
    [99, 0, 0, 0, 1, 0, 0, 0] ⟨99, IMG_CUSTOM⟩
    rfl (by decide) (by decide) (by decide) (by decide) (by decide)

/-- C3 at its failing input: with the stored record {BOOT_OK, IMG_FACTORY}
and /sys/factory.bin missing (sl_FsOpen returns -5), BOOTLoadImg fails with
-5, yet main ignores the return value in the BOOT_OK arm and transfers
execution via BOOTRun instead of hard resetting: the claimed reset on load
failure does not happen on the stable OK path. -/
theorem c3_failing_input_ok_path_ignores_load_error :
    (bootMain ⟨false, ⟨true, 8⟩, ⟨0, false, []⟩, ⟨true, 8⟩,
        ⟨⟨-5, 8, 8⟩, ⟨0, 8, 8⟩⟩, true⟩
      (some [0, 0, 0, 0, 0, 0, 0, 0])).1 =
      [Event.evRead true, Event.evLoad IMG_FACTORY (-5), Event.evRun] ∧
    Event.evReset ∉
      (bootMain ⟨false, ⟨true, 8⟩, ⟨0, false, []⟩, ⟨true, 8⟩,
        ⟨⟨-5, 8, 8⟩, ⟨0, 8, 8⟩⟩, true⟩
      (some [0, 0, 0, 0, 0, 0, 0, 0])).1 := by
  decide

/-- C6: on a boot where boot.cfg does not exist, main writes the default
record {BOOT_OK, IMG_FACTORY} before reading the configuration back, and
(when the default write and the read-back succeed) that boot loads
IMG_FACTORY; and whenever creating the default record fails, the boot hard
resets immediately. -/
theorem c6_absent_record_default (env : BootEnv)
    (hsl : env.slStartErr = false) :
    (env.wDefault.openOk = true → env.wDefault.count = 8 →
      env.rCfg.openErr = 0 → env.rCfg.readErr = false →
      (bootMain env none).1 =
        [Event.evWrite ⟨BOOT_OK, IMG_FACTORY⟩ true, Event.evRead true,
         Event.evLoad IMG_FACTORY (BOOTLoadImg env.load IMG_FACTORY).ret,
         Event.evRun]) ∧
    ((BOOTWriteCfg env.wDefault none ⟨BOOT_OK, IMG_FACTORY⟩).1 ≠ 0 →
      (bootMain env none).1 =
        [Event.evWrite ⟨BOOT_OK, IMG_FACTORY⟩ false, Event.evReset]) := by
  constructor
  · intro hop hcnt hro hrr
    have hds : deserialize ((serialize ⟨BOOT_OK, IMG_FACTORY⟩ ++
        env.rCfg.junk).take 8) = ⟨BOOT_OK, IMG_FACTORY⟩ :=
      deserialize_serialize_junk ⟨BOOT_OK, IMG_FACTORY⟩ env.rCfg.junk
        (by norm_num [BOOT_OK]) (by norm_num [IMG_FACTORY])
    have hb8 : (serialize (⟨BOOT_OK, IMG_FACTORY⟩ : bootinfo_t)).take 8 =
        serialize ⟨BOOT_OK, IMG_FACTORY⟩ := by
      rw [← serialize_length, List.take_length]
    simp [bootMain, bootAfterCreate, bootSwitch, BOOTExistCfg, BOOTReadCfg,
      BOOTWriteCfg, hsl, hop, hcnt, hro, hrr, hb8, hds]
  · intro hw
    simp [bootMain, BOOTExistCfg, hsl, hw]

/-- C6 witness: with no boot.cfg and all storage operations succeeding, the
boot creates {BOOT_OK, IMG_FACTORY}, reads it back and loads the factory
image; with the create failing, it resets. -/
theorem c6_absent_record_default_witness :
    (bootMain ⟨false, ⟨true, 8⟩, ⟨0, false, []⟩, ⟨true, 8⟩,
        ⟨⟨0, 8, 8⟩, ⟨0, 8, 8⟩⟩, true⟩ none).1 =
      [Event.evWrite ⟨BOOT_OK, IMG_FACTORY⟩ true, Event.evRead true,
       Event.evLoad IMG_FACTORY 0, Event.evRun] ∧
    (bootMain ⟨false, ⟨false, 8⟩, ⟨0, false, []⟩, ⟨true, 8⟩,
        ⟨⟨0, 8, 8⟩, ⟨0, 8, 8⟩⟩, true⟩ none).1 =
      [Event.evWrite ⟨BOOT_OK, IMG_FACTORY⟩ false, Event.evReset] := by
  constructor
  · have h := (c6_absent_record_default
      ⟨false, ⟨true, 8⟩, ⟨0, false, []⟩, ⟨true, 8⟩,
        ⟨⟨0, 8, 8⟩, ⟨0, 8, 8⟩⟩, true⟩ rfl).1 rfl rfl rfl rfl
    simpa using h
  · exact (c6_absent_record_default
      ⟨false, ⟨false, 8⟩, ⟨0, false, []⟩, ⟨true, 8⟩,
        ⟨⟨0, 8, 8⟩, ⟨0, 8, 8⟩⟩, true⟩ rfl).2 (by decide)

end Bootloader
